import Mathlib

/-
Verification of the inventory module of steamworks-rs (src/inventory.rs).

The module is a thin wrapper over an external handle-based service.  Each
wrapper function makes one or two external calls and post-processes the
results.  We embed each wrapper as a pure Lean function over an explicit
environment record that carries the responses of the external calls the
wrapper makes (success flag, the count written into the in/out parameter,
and the bytes or elements written into the caller-supplied buffer).

Rust-side aborts (expect on CString::new and String::from_utf8, and
unsigned integer subtraction underflow) are modelled with an explicit
panic outcome, distinct from returning a typed InventoryError value.
-/

/-- Error enum of src/inventory.rs (InventoryError). -/
inductive InventoryError where
  | OperationFailed
  | TriggerItemDropFailed
  | ConsumeItemFailed
  | GetResultStatusFailed
  | GetResultItemsFailed
  | InvalidInput
  | LoadItemDefinitionsFailed
  | GetItemDefinitionIDsFailed
  | GetItemDefinitionPropertyFailed
  deriving DecidableEq

/-- Outcome of calling a wrapper function: a Rust abort (expect failure or
arithmetic underflow in debug mode), a successful value, or a typed
InventoryError value. -/
inductive POutcome (α : Type) where
  | panic : POutcome α
  | ok : α → POutcome α
  | err : InventoryError → POutcome α
  deriving DecidableEq

/-- EResult status codes of the external service (a C enum, numeric). -/
abbrev EResult := Nat

/-- The terminal-success status code k_EResultOK (value 1 in the SDK). -/
def k_EResultOK : EResult := 1

/-- SteamInventoryResult_t is an i32 handle token. -/
abbrev SteamInventoryResult_t := Int

/-- Sentinel handle value k_SteamInventoryResultInvalid (value -1). -/
def k_SteamInventoryResultInvalid : SteamInventoryResult_t := -1

/-- SteamItemDef_t is an i32 item definition id. -/
abbrev SteamItemDef_t := Int

/-- SteamItemInstanceID_t is a u64 item instance id. -/
abbrev SteamItemInstanceID_t := Nat

/-- Rust u32 subtraction a - b: some result when it does not underflow,
none when it underflows (a debug-build abort; in release the wrapped value
is passed to Vec::set_len beyond capacity, which is undefined behavior). -/
def u32Sub? (a b : Nat) : Option Nat := if b ≤ a then some (a - b) else none

/-- Whether a byte is a UTF-8 continuation byte (0x80-0xBF). -/
def utf8Cont (b : Nat) : Bool := 128 ≤ b && b ≤ 191

/-- UTF-8 validity of a byte sequence, as enforced by Rust
String::from_utf8 (rejects overlong encodings, surrogates and
codepoints above U+10FFFF). -/
def isUtf8 : List Nat → Bool
  | [] => true
  | b :: rest =>
    if b ≤ 127 then isUtf8 rest
    else if 194 ≤ b && b ≤ 223 then
      match rest with
      | c1 :: r => utf8Cont c1 && isUtf8 r
      | [] => false
    else if b = 224 then
      match rest with
      | c1 :: c2 :: r => (160 ≤ c1 && c1 ≤ 191) && utf8Cont c2 && isUtf8 r
      | _ => false
    else if (225 ≤ b && b ≤ 236) || b = 238 || b = 239 then
      match rest with
      | c1 :: c2 :: r => utf8Cont c1 && utf8Cont c2 && isUtf8 r
      | _ => false
    else if b = 237 then
      match rest with
      | c1 :: c2 :: r => (128 ≤ c1 && c1 ≤ 159) && utf8Cont c2 && isUtf8 r
      | _ => false
    else if b = 240 then
      match rest with
      | c1 :: c2 :: c3 :: r =>
        (144 ≤ c1 && c1 ≤ 191) && utf8Cont c2 && utf8Cont c3 && isUtf8 r
      | _ => false
    else if 241 ≤ b && b ≤ 243 then
      match rest with
      | c1 :: c2 :: c3 :: r =>
        utf8Cont c1 && utf8Cont c2 && utf8Cont c3 && isUtf8 r
      | _ => false
    else if b = 244 then
      match rest with
      | c1 :: c2 :: c3 :: r =>
        (128 ≤ c1 && c1 ≤ 143) && utf8Cont c2 && utf8Cont c3 && isUtf8 r
      | _ => false
    else false

/-- Rust String::from_utf8: the byte content of a Rust String is exactly
the input vector when it is valid UTF-8 (we represent a Rust String by its
UTF-8 byte content; String::len in Rust is this byte length). -/
def string_from_utf8 (v : List Nat) : Option (List Nat) :=
  if isUtf8 v then some v else none

/-- Raw item details record written by the external service
(sys::SteamItemDetails_t: u64 id, i32 definition, u16 quantity, u16 flags). -/
structure SteamItemDetails_t where
  m_itemId : Nat
  m_iDefinition : Int
  m_unQuantity : Nat
  m_unFlags : Nat
  deriving DecidableEq

/-- Newtype for an item instance id (SteamItemInstanceID(pub u64)). -/
structure SteamItemInstanceID where
  val : Nat
  deriving DecidableEq

/-- Newtype for an item definition id (SteamItemDef(pub i32)). -/
structure SteamItemDef where
  val : Int
  deriving DecidableEq

/-- Decoded item details (struct SteamItemDetails in src/inventory.rs). -/
structure SteamItemDetails where
  item_id : SteamItemInstanceID
  definition : SteamItemDef
  quantity : Nat
  flags : Nat
  deriving DecidableEq

/-- Responses of the external service to the two calls a two-phase
length/fetch wrapper makes: the success flag and the count written into the
in/out parameter by each call, and the elements the second call writes into
the caller-supplied buffer. -/
structure FetchEnv (α : Type) where
  phase1_ok : Bool
  phase1_count : Nat
  phase2_ok : Bool
  phase2_count : Nat
  phase2_buf : List α

/-- Result of a two-phase wrapper together with the capacity of the buffer
it allocated (none when it returned before allocating). -/
structure FetchTrace (α : Type) where
  alloc : Option Nat
  result : POutcome (List α)

/-- Inventory::get_item_definitions_ids.  Phase 1 is called with a null
buffer; on failure the wrapper returns GetItemDefinitionIDsFailed at once.
Otherwise Vec::with_capacity(item_defs_count) allocates the buffer, phase 2
is called, and on its success set_len(item_defs_count) keeps exactly the
count phase 2 reported; on its failure the same error kind is returned. -/
def get_item_definitions_ids (env : FetchEnv SteamItemDef_t) :
    FetchTrace SteamItemDef_t :=
  if !env.phase1_ok then
    ⟨none, .err .GetItemDefinitionIDsFailed⟩
  else if env.phase2_ok then
    ⟨some env.phase1_count, .ok (env.phase2_buf.take env.phase2_count)⟩
  else
    ⟨some env.phase1_count, .err .GetItemDefinitionIDsFailed⟩

/-- Conversion applied per element inside Inventory::get_result_items:
SteamItemDetails from a raw sys::SteamItemDetails_t record. -/
def SteamItemDetails.ofRaw (details : SteamItemDetails_t) : SteamItemDetails :=
  { item_id := ⟨details.m_itemId⟩
    definition := ⟨details.m_iDefinition⟩
    quantity := details.m_unQuantity
    flags := details.m_unFlags }

/-- Inventory::get_result_items.  Same two-phase shape as
get_item_definitions_ids, with GetResultItemsFailed as the error kind for
both phases, followed by a map from the raw SteamItemDetails_t records to
SteamItemDetails in buffer order. -/
def get_result_items (env : FetchEnv SteamItemDetails_t)
    (result_handle : SteamInventoryResult_t) : FetchTrace SteamItemDetails :=
  if !env.phase1_ok then
    ⟨none, .err .GetResultItemsFailed⟩
  else if env.phase2_ok then
    ⟨some env.phase1_count,
      .ok ((env.phase2_buf.take env.phase2_count).map SteamItemDetails.ofRaw)⟩
  else
    ⟨some env.phase1_count, .err .GetResultItemsFailed⟩

/-- Inventory::get_item_definition_property.  The property name (a UTF-8
byte sequence) is first converted with CString::new(..).expect, which
aborts on an interior NUL byte before any external call.  Then the same
two-phase pattern runs with GetItemDefinitionPropertyFailed as the error
kind for both phases; on phase-2 success set_len((value_len - 1) as usize)
strips the trailing terminator (underflowing when value_len = 0), and
String::from_utf8(..).expect aborts on invalid UTF-8.  The second component
counts the external GetItemDefinitionProperty calls made. -/
def get_item_definition_property (env : FetchEnv Nat)
    (item_def : SteamItemDef_t) (property_name : List Nat) :
    POutcome (List Nat) × Nat :=
  if property_name.contains 0 then
    (.panic, 0)
  else if !env.phase1_ok then
    (.err .GetItemDefinitionPropertyFailed, 1)
  else if env.phase2_ok then
    match u32Sub? env.phase2_count 1 with
    | none => (.panic, 2)
    | some stripped_len =>
      match string_from_utf8 (env.phase2_buf.take stripped_len) with
      | some value => (.ok value, 2)
      | none => (.panic, 2)
  else
    (.err .GetItemDefinitionPropertyFailed, 2)

/-- Response of the external service to a single handle-producing call:
the success flag and the handle it writes into the out parameter. -/
structure TriggerEnv where
  call_ok : Bool
  handle_out : SteamInventoryResult_t

/-- Inventory::consume_item.  On external success the written handle is
returned; on external failure the wrapper returns
InventoryError::OperationFailed (the source does not use ConsumeItemFailed
here). -/
def consume_item (env : TriggerEnv) (item_consume : SteamItemInstanceID_t)
    (quantity : Nat) : POutcome SteamInventoryResult_t :=
  if env.call_ok then .ok env.handle_out else .err .OperationFailed

/-- Inventory::trigger_item_drop.  On external failure the wrapper returns
TriggerItemDropFailed. -/
def trigger_item_drop (env : TriggerEnv)
    (drop_list_definition : SteamItemDef_t) : POutcome SteamInventoryResult_t :=
  if env.call_ok then .ok env.handle_out else .err .TriggerItemDropFailed

/-- Inventory::get_result_status.  The argument is the EResult status the
external GetResultStatus call returns for the handle; the wrapper succeeds
exactly on k_EResultOK and collapses every other status (including a
still-pending handle) into GetResultStatusFailed. -/
def get_result_status (status : EResult) : POutcome EResult :=
  if status = k_EResultOK then .ok status else .err .GetResultStatusFailed

/-- Inventory::destroy_result.  The external DestroyResult call's boolean
return is discarded; the wrapper returns unit unconditionally. -/
def destroy_result (destroy_call_ok : Bool) : POutcome Unit :=
  .ok ()

/-- Modelled from the spec: SteamError is the module's own error taxonomy
for decoded failure reasons.  The From impl that decodes a raw EResult
status code into it lives in the crate outside src/inventory.rs, so we
model the decoded failure reason as a record of the raw code it was
decoded from. -/
structure SteamError where
  code : EResult
  deriving DecidableEq

/-- Modelled from the spec: decoding of a raw external status code into
the module's own failure reason (SteamError::from on EResult). -/
def SteamError.fromRaw (r : EResult) : SteamError := ⟨r⟩

/-- Raw callback payload sys::SteamInventoryResultReady_t delivered by the
external event mechanism. -/
structure SteamInventoryResultReady_t where
  m_handle : SteamInventoryResult_t
  m_result : EResult
  deriving DecidableEq

/-- Decoded callback record SteamInventoryResultReady of src/inventory.rs:
the handle and a Result carrying either success or a decoded failure. -/
structure SteamInventoryResultReady where
  handle : SteamInventoryResult_t
  result : Except SteamError Unit

/-- SteamInventoryResultReady::from_raw: decode the raw payload once, at
delivery time, keeping the handle and mapping status k_EResultOK to Ok
and every other raw status to the decoded failure reason. -/
def SteamInventoryResultReady.from_raw (raw : SteamInventoryResultReady_t) :
    SteamInventoryResultReady :=
  { handle := raw.m_handle
    result :=
      if raw.m_result = k_EResultOK then Except.ok ()
      else Except.error (SteamError.fromRaw raw.m_result) }

/-- C1 amended: for the two-phase length/fetch wrappers.  For
get_item_definitions_ids and get_result_items the pattern is as claimed: a
phase-1 failure returns the corresponding error immediately, with no
buffer allocated and no partial data; when phase 1 succeeds reporting
required count N, a buffer of capacity N (hence at least N) is allocated
and, on phase-2 success, the returned sequence is exactly the first
phase-2-count elements of the buffer, of length equal to the count phase 2
reports (which may be below N); on phase-2 failure the same error kind as
phase 1 is returned and no partial data escapes.  The third two-phase
query, get_item_definition_property, follows the same error paths (the
same error kind from either phase, no partial data) but deviates on
phase-2 success: a decodable result is truncated to the phase-2 count
minus one, the trailing terminator byte being stripped, and a phase-2
count of 0 aborts by unsigned underflow instead of returning data or an
error value. -/
theorem two_phase_length_fetch_correct
    (e1 : FetchEnv SteamItemDef_t) (e2 : FetchEnv SteamItemDetails_t)
    (handle : SteamInventoryResult_t) (e3 : FetchEnv Nat)
    (d : SteamItemDef_t) (name : List Nat) :
    (e1.phase1_ok = false →
      get_item_definitions_ids e1 =
        ⟨none, POutcome.err InventoryError.GetItemDefinitionIDsFailed⟩) ∧
    (e1.phase1_ok = true →
      (get_item_definitions_ids e1).alloc = some e1.phase1_count) ∧
    (e1.phase1_ok = true → e1.phase2_ok = true →
      e1.phase2_count ≤ e1.phase2_buf.length →
      (get_item_definitions_ids e1).result =
        POutcome.ok (e1.phase2_buf.take e1.phase2_count) ∧
      (e1.phase2_buf.take e1.phase2_count).length = e1.phase2_count) ∧
    (e1.phase1_ok = true → e1.phase2_ok = false →
      (get_item_definitions_ids e1).result =
        POutcome.err InventoryError.GetItemDefinitionIDsFailed) ∧
    (e2.phase1_ok = false →
      get_result_items e2 handle =
        ⟨none, POutcome.err InventoryError.GetResultItemsFailed⟩) ∧
    (e2.phase1_ok = true →
      (get_result_items e2 handle).alloc = some e2.phase1_count) ∧
    (e2.phase1_ok = true → e2.phase2_ok = true →
      e2.phase2_count ≤ e2.phase2_buf.length →
      (get_result_items e2 handle).result =
        POutcome.ok
          ((e2.phase2_buf.take e2.phase2_count).map SteamItemDetails.ofRaw) ∧
      ((e2.phase2_buf.take e2.phase2_count).map SteamItemDetails.ofRaw).length =
        e2.phase2_count) ∧
    (e2.phase1_ok = true → e2.phase2_ok = false →
      (get_result_items e2 handle).result =
        POutcome.err InventoryError.GetResultItemsFailed) ∧
    (name.contains 0 = false → e3.phase1_ok = false →
      get_item_definition_property e3 d name =
        (POutcome.err InventoryError.GetItemDefinitionPropertyFailed, 1)) ∧
    (name.contains 0 = false → e3.phase1_ok = true → e3.phase2_ok = false →
      get_item_definition_property e3 d name =
        (POutcome.err InventoryError.GetItemDefinitionPropertyFailed, 2)) ∧
    (name.contains 0 = false → e3.phase1_ok = true → e3.phase2_ok = true →
      1 ≤ e3.phase2_count → e3.phase2_count ≤ e3.phase2_buf.length →
      isUtf8 (e3.phase2_buf.take (e3.phase2_count - 1)) = true →
      (get_item_definition_property e3 d name).1 =
        POutcome.ok (e3.phase2_buf.take (e3.phase2_count - 1)) ∧
      (e3.phase2_buf.take (e3.phase2_count - 1)).length =
        e3.phase2_count - 1) ∧
    (name.contains 0 = false → e3.phase1_ok = true → e3.phase2_ok = true →
      e3.phase2_count = 0 →
      (get_item_definition_property e3 d name).1 = POutcome.panic) := by
  refine ⟨?_, ?_, ?_, ?_, ?_, ?_, ?_, ?_, ?_, ?_, ?_, ?_⟩
  · intro h; simp [get_item_definitions_ids, h]
  · intro h; cases h2 : e1.phase2_ok <;>
      simp [get_item_definitions_ids, h, h2]
  · intro h h2 hle
    refine ⟨by simp [get_item_definitions_ids, h, h2], ?_⟩
    simp [List.length_take]
    omega
  · intro h h2; simp [get_item_definitions_ids, h, h2]
  · intro h; simp [get_result_items, h]
  · intro h; cases h2 : e2.phase2_ok <;>
      simp [get_result_items, h, h2]
  · intro h h2 hle
    refine ⟨by simp [get_result_items, h, h2], ?_⟩
    simp [List.length_take]
    omega
  · intro h h2; simp [get_result_items, h, h2]
  · intro hn h1
    have hn2 : (0 : Nat) ∉ name := by simpa using hn
    simp [get_item_definition_property, hn2, h1]
  · intro hn h1 h2
    have hn2 : (0 : Nat) ∉ name := by simpa using hn
    simp [get_item_definition_property, hn2, h1, h2]
  · intro hn h1 h2 hc hlen hu
    have hn2 : (0 : Nat) ∉ name := by simpa using hn
    have hsub : u32Sub? e3.phase2_count 1 = some (e3.phase2_count - 1) := by
      simp [u32Sub?, hc]
    have hdec : string_from_utf8 (e3.phase2_buf.take (e3.phase2_count - 1)) =
        some (e3.phase2_buf.take (e3.phase2_count - 1)) := by
      simp [string_from_utf8, hu]
    refine ⟨by simp [get_item_definition_property, hn2, h1, h2, hsub, hdec],
      ?_⟩
    simp [List.length_take]
    omega
  · intro hn h1 h2 h0
    have hn2 : (0 : Nat) ∉ name := by simpa using hn
    have hsub : u32Sub? e3.phase2_count 1 = none := by simp [u32Sub?, h0]
    simp [get_item_definition_property, hn2, h1, h2, hsub]

/-- C1 counterexample: the claim, as stated, fails on the third two-phase
query it enumerates, get_item_definition_property: with both phases
succeeding and phase 2 reporting count 2 for the buffer [104, 0], the
returned value is [104] of length 1, not a sequence truncated to exactly
the count 2 that phase 2 reports. -/
theorem two_phase_pattern_counterexample :
    (get_item_definition_property ⟨true, 2, true, 2, [104, 0]⟩ 1 [97]).1 =
      POutcome.ok [104] ∧
    (get_item_definition_property ⟨true, 2, true, 2, [104, 0]⟩ 1 [97]).1 ≠
      POutcome.ok (([104, 0] : List Nat).take 2) ∧
    ([104] : List Nat).length ≠ 2 := by
  refine ⟨by decide, by decide, by decide⟩

/-- C1 witness: concrete runs through the theorem: a 3-element phase-1
report with phase 2 reporting 2 elements is truncated to those 2 elements,
a phase-1 failure of get_result_items returns the error with nothing
allocated, and a property read whose phase 2 reports 2 bytes returns the
single byte before the stripped terminator. -/
theorem two_phase_length_fetch_correct_witness :
    (get_item_definitions_ids ⟨true, 3, true, 2, [10, 20, 30]⟩).result =
      POutcome.ok (([10, 20, 30] : List SteamItemDef_t).take 2) ∧
    get_result_items ⟨false, 0, false, 0, []⟩ 7 =
      ⟨none, POutcome.err InventoryError.GetResultItemsFailed⟩ ∧
    (get_item_definition_property ⟨true, 2, true, 2, [104, 0]⟩ 3 [113]).1 =
      POutcome.ok (([104, 0] : List Nat).take (2 - 1)) :=
  ⟨((two_phase_length_fetch_correct ⟨true, 3, true, 2, [10, 20, 30]⟩
      ⟨false, 0, false, 0, []⟩ 7 ⟨true, 2, true, 2, [104, 0]⟩ 3
      [113]).2.2.1 rfl rfl (by decide)).1,
   (two_phase_length_fetch_correct ⟨true, 3, true, 2, [10, 20, 30]⟩
      ⟨false, 0, false, 0, []⟩ 7 ⟨true, 2, true, 2, [104, 0]⟩ 3
      [113]).2.2.2.2.1 rfl,
   ((two_phase_length_fetch_correct ⟨true, 3, true, 2, [10, 20, 30]⟩
      ⟨false, 0, false, 0, []⟩ 7 ⟨true, 2, true, 2, [104, 0]⟩ 3
      [113]).2.2.2.2.2.2.2.2.2.2.1 (by decide) rfl rfl (by decide)
      (by decide) (by decide)).1⟩

/-- C3: get_result_status succeeds, returning the status, exactly when the
external status is k_EResultOK; every other status, a still-pending handle
included, collapses to the single error GetResultStatusFailed. -/
theorem get_result_status_ok_iff (status : EResult) :
    (get_result_status status = POutcome.ok status ↔
      status = k_EResultOK) ∧
    (status ≠ k_EResultOK →
      get_result_status status =
        POutcome.err InventoryError.GetResultStatusFailed) := by
  constructor
  · constructor
    · intro h
      by_contra hne
      simp [get_result_status, hne] at h
    · intro h; simp [get_result_status, h]
  · intro h; simp [get_result_status, h]

/-- C3 witness: status 2 (a non-OK code) yields GetResultStatusFailed. -/
theorem get_result_status_ok_iff_witness :
    get_result_status 2 = POutcome.err InventoryError.GetResultStatusFailed :=
  (get_result_status_ok_iff 2).2 (by decide)

/-- C4: when the external ConsumeItem call fails, consume_item returns the
generic OperationFailed and not ConsumeItemFailed; the ConsumeItemFailed
variant is never produced by the source. -/
theorem consume_item_failure_returns_OperationFailed
    (h : SteamInventoryResult_t) (item : SteamItemInstanceID_t) (q : Nat) :
    consume_item ⟨false, h⟩ item q =
      POutcome.err InventoryError.OperationFailed ∧
    consume_item ⟨false, h⟩ item q ≠
      POutcome.err InventoryError.ConsumeItemFailed := by
  constructor <;> simp [consume_item]

/-- C8: destroy_result has no failure path: whatever boolean the external
DestroyResult call reports, the wrapper returns unit successfully, never a
panic and never an InventoryError. -/
theorem destroy_result_never_fails (b : Bool) :
    destroy_result b = POutcome.ok () := rfl

/-- C2 counterexample: both phases succeed, phase 2 reports count 2 and
writes the bytes [255, 0]; after stripping the terminator the remaining
byte 0xFF is not valid UTF-8, and the operation aborts through
String::from_utf8(..).expect: it returns no typed InventoryError value at
all, hence in particular no decoding error distinct from
GetItemDefinitionPropertyFailed (InventoryError has no such variant). -/
theorem get_property_invalid_utf8_counterexample :
    (get_item_definition_property ⟨true, 2, true, 2, [255, 0]⟩ 1 [97]).1 =
      POutcome.panic ∧
    (get_item_definition_property ⟨true, 2, true, 2, [255, 0]⟩ 1 [97]).1 ≠
      POutcome.err InventoryError.GetItemDefinitionPropertyFailed ∧
    ¬ (get_item_definition_property ⟨true, 2, true, 2, [255, 0]⟩ 1 [97]).1 =
      POutcome.err InventoryError.InvalidInput := by
  refine ⟨by decide, by decide, by decide⟩

/-- C2 amended: when the property name has no interior NUL, both phases
succeed with a reported count of at least 1, and the fetched bytes with
the trailing terminator stripped are not valid UTF-8, the operation
panics (String::from_utf8(..).expect aborts the process) instead of
returning a typed error value; it never silently truncates or replaces
characters, but it also never returns a decoding error value. -/
theorem get_property_invalid_utf8_panics (env : FetchEnv Nat)
    (d : SteamItemDef_t) (name : List Nat)
    (hn : name.contains 0 = false)
    (h1 : env.phase1_ok = true) (h2 : env.phase2_ok = true)
    (hc : 1 ≤ env.phase2_count)
    (hu : isUtf8 (env.phase2_buf.take (env.phase2_count - 1)) = false) :
    (get_item_definition_property env d name).1 = POutcome.panic := by
  have hsub : u32Sub? env.phase2_count 1 = some (env.phase2_count - 1) := by
    simp [u32Sub?, hc]
  have hdec : string_from_utf8
      (env.phase2_buf.take (env.phase2_count - 1)) = none := by
    simp [string_from_utf8, hu]
  simp [get_item_definition_property, hn, h1, h2, hsub, hdec]
  split <;> rfl

/-- C2 amended witness: a concrete invalid-UTF-8 fetch panics. -/
theorem get_property_invalid_utf8_panics_witness :
    (get_item_definition_property ⟨true, 3, true, 3, [200, 201, 0]⟩ 5
      [110, 97, 109, 101]).1 = POutcome.panic :=
  get_property_invalid_utf8_panics ⟨true, 3, true, 3, [200, 201, 0]⟩ 5
    [110, 97, 109, 101] (by decide) rfl rfl (by decide) (by decide)

/-- C5 counterexample: with an empty property-name key and a failing
phase-1 response, the operation returns GetItemDefinitionPropertyFailed
after making one external call; it does not return InvalidInput, and it
does not fail before the external call. -/
theorem empty_property_name_counterexample :
    get_item_definition_property ⟨false, 0, false, 0, []⟩ 1 [] =
      (POutcome.err InventoryError.GetItemDefinitionPropertyFailed, 1) ∧
    (get_item_definition_property ⟨false, 0, false, 0, []⟩ 1 []).1 ≠
      POutcome.err InventoryError.InvalidInput ∧
    (get_item_definition_property ⟨false, 0, false, 0, []⟩ 1 []).2 ≠ 0 := by
  refine ⟨by decide, by decide, by decide⟩

/-- C5 amended: an empty property-name key is not validated: the wrapper
performs no argument check, always reaches the external service (at least
one external GetItemDefinitionProperty call is made), and never returns
InvalidInput, whatever the external responses are; the source never
constructs the InvalidInput variant. -/
theorem empty_property_name_not_validated (env : FetchEnv Nat)
    (d : SteamItemDef_t) :
    1 ≤ (get_item_definition_property env d []).2 ∧
    (get_item_definition_property env d []).1 ≠
      POutcome.err InventoryError.InvalidInput := by
  obtain ⟨p1, c1, p2, c2, buf⟩ := env
  unfold get_item_definition_property
  cases p1 <;> cases p2 <;> simp
  all_goals
    cases hsub : u32Sub? c2 1 with
    | none => simp
    | some v => cases hdec : string_from_utf8 (List.take v buf) <;> simp [hdec]

/-- C6: a successful read whose phase 2 reports byte count L, with the
terminator byte at position L-1 of the fetched buffer, strips exactly one
trailing byte: the decoded value is the first L-1 bytes of the buffer and
its length is L-1. -/
theorem property_value_strips_one_terminator (env : FetchEnv Nat)
    (d : SteamItemDef_t) (name : List Nat) (L : Nat)
    (hn : name.contains 0 = false)
    (h1 : env.phase1_ok = true) (h2 : env.phase2_ok = true)
    (hL : env.phase2_count = L) (hpos : 1 ≤ L)
    (hbuf : env.phase2_buf.length = L)
    (hterm : env.phase2_buf.getD (L - 1) 1 = 0)
    (hu : isUtf8 (env.phase2_buf.take (L - 1)) = true) :
    (get_item_definition_property env d name).1 =
      POutcome.ok (env.phase2_buf.take (L - 1)) ∧
    (env.phase2_buf.take (L - 1)).length = L - 1 := by
  have hsub : u32Sub? env.phase2_count 1 = some (L - 1) := by
    simp [u32Sub?, hL]
    omega
  have hdec : string_from_utf8 (env.phase2_buf.take (L - 1)) =
      some (env.phase2_buf.take (L - 1)) := by
    simp [string_from_utf8, hu]
  have hn2 : (0 : Nat) ∉ name := by simpa using hn
  constructor
  · simp [get_item_definition_property, hn2, h1, h2, hsub, hdec]
  · simp [List.length_take]
    omega

/-- C6 witness: phase 2 reports 3 bytes [104, 105, 0] with the terminator
at position 2; the decoded value is [104, 105] of length 2. -/
theorem property_value_strips_one_terminator_witness :
    (get_item_definition_property ⟨true, 3, true, 3, [104, 105, 0]⟩ 4
      [113]).1 = POutcome.ok (([104, 105, 0] : List Nat).take 2) ∧
    (([104, 105, 0] : List Nat).take 2).length = 2 :=
  property_value_strips_one_terminator ⟨true, 3, true, 3, [104, 105, 0]⟩ 4
    [113] 3 (by decide) rfl rfl rfl (by decide) (by decide) (by decide)
    (by decide)

/-- C7: from_raw carries over the payload handle unchanged, and its
outcome is Ok exactly when the raw status code is k_EResultOK; any other
raw status decodes to the failure reason obtained from that raw status
code.  The decoding is the definition of from_raw itself, applied once at
delivery. -/
theorem result_ready_from_raw_correct (raw : SteamInventoryResultReady_t) :
    (SteamInventoryResultReady.from_raw raw).handle = raw.m_handle ∧
    ((SteamInventoryResultReady.from_raw raw).result = Except.ok () ↔
      raw.m_result = k_EResultOK) ∧
    (raw.m_result ≠ k_EResultOK →
      (SteamInventoryResultReady.from_raw raw).result =
        Except.error (SteamError.fromRaw raw.m_result)) := by
  refine ⟨rfl, ⟨?_, ?_⟩, ?_⟩
  · intro h
    by_contra hne
    simp [SteamInventoryResultReady.from_raw, hne] at h
  · intro h; simp [SteamInventoryResultReady.from_raw, h]
  · intro h; simp [SteamInventoryResultReady.from_raw, h]

/-- C7 witness: the raw payload with handle 7 and non-OK status 2 decodes
to handle 7 and the failure reason decoded from status 2. -/
theorem result_ready_from_raw_correct_witness :
    (SteamInventoryResultReady.from_raw ⟨7, 2⟩).handle = 7 ∧
    (SteamInventoryResultReady.from_raw ⟨7, 2⟩).result =
      Except.error (SteamError.fromRaw 2) :=
  ⟨(result_ready_from_raw_correct ⟨7, 2⟩).1,
   (result_ready_from_raw_correct ⟨7, 2⟩).2.2 (by decide)⟩

/-- C9: a property name containing an interior NUL byte makes
CString::new(..).expect abort before any external call: the outcome is a
panic with zero external calls made, so no InventoryError value (such as
InvalidInput) is ever returned for such a name. -/
theorem interior_nul_name_panics (env : FetchEnv Nat) (d : SteamItemDef_t)
    (name : List Nat) (h : name.contains 0 = true) :
    get_item_definition_property env d name = (POutcome.panic, 0) := by
  simp [get_item_definition_property]
  intro hmem
  exact absurd h (by simpa using hmem)

/-- C9 witness: the name bytes [97, 0, 98] hold an interior NUL, so the
call panics having made zero external calls. -/
theorem interior_nul_name_panics_witness :
    get_item_definition_property ⟨true, 1, true, 1, [0]⟩ 3 [97, 0, 98] =
      (POutcome.panic, 0) :=
  interior_nul_name_panics ⟨true, 1, true, 1, [0]⟩ 3 [97, 0, 98] (by decide)

/-- C10: the post-fetch length computation value_len - 1 is unguarded u32
subtraction, well-defined only when phase 2 reports at least 1: if both
phases succeed and phase 2 reports count 0 the subtraction underflows and
the call aborts (returning no error value), while for any reported count
of at least 1 that subtraction itself cannot underflow. -/
theorem phase2_count_zero_underflows (env : FetchEnv Nat)
    (d : SteamItemDef_t) (name : List Nat)
    (hn : name.contains 0 = false)
    (h1 : env.phase1_ok = true) (h2 : env.phase2_ok = true)
    (h0 : env.phase2_count = 0) :
    get_item_definition_property env d name = (POutcome.panic, 2) ∧
    (∀ n, 1 ≤ n → u32Sub? n 1 = some (n - 1)) := by
  constructor
  · have hsub : u32Sub? env.phase2_count 1 = none := by
      simp [u32Sub?, h0]
    have hn2 : (0 : Nat) ∉ name := by simpa using hn
    simp [get_item_definition_property, h1, h2, hsub, hn2]
  · intro n hn1
    simp [u32Sub?, hn1]

/-- C10 witness: both phases succeed and phase 2 reports count 0; the call
aborts with the underflow instead of returning an error value. -/
theorem phase2_count_zero_underflows_witness :
    get_item_definition_property ⟨true, 1, true, 0, []⟩ 2 [112] =
      (POutcome.panic, 2) :=
  (phase2_count_zero_underflows ⟨true, 1, true, 0, []⟩ 2 [112] (by decide)
    rfl rfl rfl).1
